import Mathlib

/-!
Verification of the NPJP transaction import/filter pipeline.

The definitions below are a shallow embedding of the Python sources:
  - src/importer/validator.py        (field and record validators)
  - src/importer/importer_controller.py  (TransactionImporter.load, TransactionFilter)
  - src/NPJP_Final/importer.py       (identical validator/filter logic plus
                                      TransactionFilter.apply_filters)

Python `decimal.Decimal` values are modelled by `NPJP.Dec`: the internal
(sign, coefficient-digits, exponent) triple for finite values, plus signed
infinities and (quiet/signaling) NaNs.  Ordering comparisons on Decimals
signal InvalidOperation when a NaN is involved; this is modelled by
`Dec.lt?` returning `none`.  `datetime.strptime` is external library code;
record validation is parametric in the date parser (`String → Option Date`).
-/

namespace NPJP

/-- Decidable equality for `Except` results (not provided by core). -/
def decEqExcept {ε α : Type} [DecidableEq ε] [DecidableEq α] :
    DecidableEq (Except ε α)
  | .ok x, .ok y =>
      match decEq x y with
      | isTrue h => isTrue (h ▸ rfl)
      | isFalse h => isFalse (fun hc => h (by cases hc; rfl))
  | .ok _, .error _ => isFalse (fun hc => by cases hc)
  | .error _, .ok _ => isFalse (fun hc => by cases hc)
  | .error e, .error f =>
      match decEq e f with
      | isTrue h => isTrue (h ▸ rfl)
      | isFalse h => isFalse (fun hc => h (by cases hc; rfl))

instance {ε α : Type} [DecidableEq ε] [DecidableEq α] : DecidableEq (Except ε α) :=
  decEqExcept

/-- ASCII whitespace, as removed by Python `str.strip()` (the inputs this
pipeline strips never contain non-ASCII whitespace). -/
def isSpaceChar (c : Char) : Bool :=
  (c == ' ') || (c == '\t') || (c == '\n') || (c == '\x0b') || (c == '\x0c') || (c == '\r')

/-- Python `str.strip()`. -/
def pyStrip (s : String) : String :=
  ⟨((s.data.dropWhile isSpaceChar).reverse.dropWhile isSpaceChar).reverse⟩

/-- Python `str.lower()` (ASCII; the categories, types and keywords this
pipeline lowercases are ASCII). -/
def pyLower (s : String) : String :=
  ⟨s.data.map Char.toLower⟩

/-- Python `decimal.Decimal`: finite values carry the internal
(sign, coefficient digits most-significant-first, exponent) triple;
NaNs carry sign, a signaling flag and the diagnostic payload digits. -/
inductive Dec where
  | fin (sign : Bool) (coeff : List Nat) (exp : Int)
  | inf (sign : Bool)
  | nan (sign : Bool) (signaling : Bool) (payload : List Nat)
deriving DecidableEq, Repr

/-- Digits (most significant first) to the natural number they denote. -/
def digitsToNat (ds : List Nat) : Nat :=
  ds.foldl (fun acc d => acc * 10 + d) 0

/-- `10 ^ e` as a rational, for an integer exponent. -/
def pow10 (e : Int) : ℚ := (10 : ℚ) ^ e

/-- Exact rational value of a finite Decimal triple. -/
def Dec.finVal (sign : Bool) (coeff : List Nat) (exp : Int) : ℚ :=
  (if sign then -1 else 1) * (digitsToNat coeff : ℚ) * pow10 exp

/-- Signed integer numerator of a finite triple over the common
denominator `10 ^ (-base)`; two finite Decimals compare exactly like
their numerators over the common base `min e1 e2` (see `scaled_lt_iff`). -/
def Dec.scaled (sign : Bool) (coeff : List Nat) (exp base : Int) : Int :=
  (if sign then -1 else 1) * (digitsToNat coeff : Int) * 10 ^ (exp - base).toNat

def Dec.isNan : Dec → Bool
  | .nan _ _ _ => true
  | _ => false

/-- Python Decimal `<`: `none` models the InvalidOperation signal raised
when either operand is a NaN.  Finite values compare by exact integer
arithmetic over a common power-of-ten denominator. -/
def Dec.lt? : Dec → Dec → Option Bool
  | .nan _ _ _, _ => none
  | _, .nan _ _ _ => none
  | .inf s1, .inf s2 => some (s1 && !s2)
  | .inf s1, .fin _ _ _ => some s1
  | .fin _ _ _, .inf s2 => some (!s2)
  | .fin s1 c1 e1, .fin s2 c2 e2 =>
      some (decide (Dec.scaled s1 c1 e1 (min e1 e2) < Dec.scaled s2 c2 e2 (min e1 e2)))

/-- Python Decimal `<=`: `none` models the InvalidOperation signal on NaN. -/
def Dec.le? : Dec → Dec → Option Bool
  | .nan _ _ _, _ => none
  | _, .nan _ _ _ => none
  | .inf s1, .inf s2 => some (s1 || !s2)
  | .inf s1, .fin _ _ _ => some s1
  | .fin _ _ _, .inf s2 => some (!s2)
  | .fin s1 c1 e1, .fin s2 c2 e2 =>
      some (decide (Dec.scaled s1 c1 e1 (min e1 e2) ≤ Dec.scaled s2 c2 e2 (min e1 e2)))

/-- Python Decimal `==`: quiet NaN compares unequal without signaling,
signaling NaN signals (`none`), otherwise numeric value equality. -/
def Dec.eq? : Dec → Dec → Option Bool
  | .nan _ true _, _ => none
  | _, .nan _ true _ => none
  | .nan _ false _, _ => some false
  | _, .nan _ false _ => some false
  | .inf s1, .inf s2 => some (s1 == s2)
  | .inf _, .fin _ _ _ => some false
  | .fin _ _ _, .inf _ => some false
  | .fin s1 c1 e1, .fin s2 c2 e2 =>
      some (decide (Dec.scaled s1 c1 e1 (min e1 e2) = Dec.scaled s2 c2 e2 (min e1 e2)))

/-- The Decimal zero (`Decimal(0)`). -/
def Dec.zero : Dec := .fin false [0] 0

/-- Python truthiness of a Decimal: every zero-valued finite Decimal is
falsy; everything else (including infinities and NaNs) is truthy. -/
def Dec.truthy : Dec → Bool
  | .fin _ c _ => decide (digitsToNat c ≠ 0)
  | _ => true

/-- Total `<` used in the filter engine, where validated amounts are never
NaN; agrees with Python wherever Python does not signal. -/
def Dec.ltb (a b : Dec) : Bool := (Dec.lt? a b).getD false

/-- Total `<=` used in the filter engine; agrees with Python wherever
Python does not signal. -/
def Dec.leb (a b : Dec) : Bool := (Dec.le? a b).getD false

def decDigitChar (d : Nat) : Char := Char.ofNat (48 + d)

def digitsStr (ds : List Nat) : String := String.mk (ds.map decDigitChar)

/-- Python `str(Decimal)`: the to-scientific-string conversion of the
General Decimal Arithmetic specification. -/
def Dec.toStr : Dec → String
  | .inf sign => (if sign then "-" else "") ++ "Infinity"
  | .nan sign sig payload =>
      (if sign then "-" else "") ++ (if sig then "sNaN" else "NaN") ++ digitsStr payload
  | .fin sign coeff exp =>
      let s := if sign then "-" else ""
      let n : Int := coeff.length
      let adjusted : Int := exp + n - 1
      if exp ≤ 0 ∧ -6 ≤ adjusted then
        if exp = 0 then s ++ digitsStr coeff
        else if adjusted < 0 then
          s ++ "0." ++ String.mk (List.replicate ((-exp).toNat - coeff.length) '0') ++
            digitsStr coeff
        else
          s ++ digitsStr (coeff.take (coeff.length - (-exp).toNat)) ++ "." ++
            digitsStr (coeff.drop (coeff.length - (-exp).toNat))
      else
        s ++ digitsStr (coeff.take 1) ++
          (if coeff.length > 1 then "." ++ digitsStr (coeff.drop 1) else "") ++
          "E" ++ (if adjusted < 0 then "-" else "+") ++ toString adjusted.natAbs

/-! ### Parsing decimal strings (`Decimal(str)`)

Python accepts, after removing leading/trailing whitespace and all
underscores: `[sign] (digits [. digits] | . digits) [(e|E) [sign] digits]`,
`[sign] (inf|infinity)`, `[sign] nan [digits]`, `[sign] snan [digits]`,
all case-insensitive. -/

def stripUnderscores (s : String) : String := ⟨s.data.filter (fun c => c ≠ '_')⟩

def charDigit? (c : Char) : Option Nat :=
  if '0' ≤ c ∧ c ≤ '9' then some (c.toNat - 48) else none

def takeDigits : List Char → List Nat × List Char
  | [] => ([], [])
  | c :: rest =>
    match charDigit? c with
    | some d => let (ds, r) := takeDigits rest; (d :: ds, r)
    | none => ([], c :: rest)

/-- Parse an optional sign; `true` means negative. -/
def parseSign : List Char → Bool × List Char
  | '+' :: r => (false, r)
  | '-' :: r => (true, r)
  | r => (false, r)

/-- Parse the optional exponent part `(e|E) [sign] digits`, which must
consume the whole remaining input. -/
def parseExponent : List Char → Option Int
  | [] => some 0
  | c :: rest =>
    if c = 'e' ∨ c = 'E' then
      let (esign, r1) := parseSign rest
      let (ds, r2) := takeDigits r1
      if ds = [] ∨ r2 ≠ [] then none
      else some ((if esign then -1 else 1) * (digitsToNat ds : Int))
    else none

/-- Strip leading zeros from a coefficient, keeping at least one digit
(mirrors how `Decimal` normalizes its internal digit tuple). -/
def normCoeff (ds : List Nat) : List Nat :=
  match ds.dropWhile (fun d => d = 0) with
  | [] => [0]
  | r => r

/-- Parse `digits [. digits] [exponent]` into (coefficient digits,
exponent); fails unless the whole input is consumed and at least one
digit is present. -/
def parseNumericBody (cs : List Char) : Option (List Nat × Int) :=
  let (intds, r1) := takeDigits cs
  match r1 with
  | '.' :: r2 =>
    let (fracds, r3) := takeDigits r2
    if intds = [] ∧ fracds = [] then none
    else
      match parseExponent r3 with
      | none => none
      | some e => some (intds ++ fracds, e - fracds.length)
  | _ =>
    if intds = [] then none
    else
      match parseExponent r1 with
      | none => none
      | some e => some (intds, e)

/-- `Decimal(s)` for an already-stripped string `s`: `none` models the
InvalidOperation raised on a malformed numeric string. -/
def decimalOfString (s : String) : Option Dec :=
  let cs := (stripUnderscores s).data
  let (sign, r) := parseSign cs
  let lower := r.map Char.toLower
  if lower = "inf".data ∨ lower = "infinity".data then some (.inf sign)
  else if lower.take 4 = "snan".data then
    let (ds, rest) := takeDigits (r.drop 4)
    if rest = [] then some (.nan sign true (ds.dropWhile (fun d => d = 0))) else none
  else if lower.take 3 = "nan".data then
    let (ds, rest) := takeDigits (r.drop 3)
    if rest = [] then some (.nan sign false (ds.dropWhile (fun d => d = 0))) else none
  else
    match parseNumericBody r with
    | none => none
    | some (ds, e) => some (.fin sign (normCoeff ds) e)

/-! ### Dates and records -/

/-- Result of `datetime.strptime` for a date-only format: a calendar date. -/
structure Date where
  year : Nat
  month : Nat
  day : Nat
deriving DecidableEq, Repr

/-- `datetime` comparison (lexicographic on year, month, day; the time
component is always midnight for records parsed by this pipeline). -/
def Date.leb (a b : Date) : Bool :=
  decide ((a.year, a.month, a.day) ≤ (b.year, b.month, b.day))

/-- A raw CSV row as produced by `csv.DictReader`: a finite string-to-string
mapping, modelled as an association list with distinct keys. -/
abbrev RawRecord := List (String × String)

/-- A validated transaction record, as assembled by `validate_record`. -/
structure ValidRecord where
  date : Date
  amount : Dec
  category : String
  type : String
  description : String
  original_record : RawRecord
deriving DecidableEq, Repr

/-! ### Field validators (src/importer/validator.py; the methods of
`TransactionValidator` in src/NPJP_Final/importer.py are line-for-line
identical).  A validator returning `Except.error msg` models `raise
ValidationError(msg)`. -/

def REQUIRED_FIELDS : List String := ["date", "amount", "category", "type", "description"]

/-- `VALID_TRANSACTION_TYPES = {t.value for t in TransactionType}`.  The
Python value is a set; it is modelled as the list of enum values in
declaration order (set iteration order only affects one error message). -/
def VALID_TRANSACTION_TYPES : List String := ["income", "expense", "transfer"]

/-- `f not in record or not record[f].strip()`: the field is absent from
the row or its value is whitespace-only. -/
def fieldBlank (record : RawRecord) (f : String) : Bool :=
  match record.lookup f with
  | none => true
  | some v => pyStrip v == ""

/-- The fields that are absent or whitespace-only in a row:
`[f for f in REQUIRED_FIELDS if f not in record or not record[f].strip()]`. -/
def missingFields (record : RawRecord) : List String :=
  REQUIRED_FIELDS.filter (fieldBlank record)

def validate_field_presence (record : RawRecord) (row_num : Nat) : Except String Unit :=
  let missing := missingFields record
  if missing ≠ [] then
    .error ("Row " ++ toString row_num ++ ": Missing required fields: " ++
      String.intercalate ", " missing)
  else .ok ()

/-- `validate_date`: `datetime.strptime(date_str.strip(), date_format)` is
external library code, passed in as `parseDate` (`none` models ValueError). -/
def validate_date (date_format : String) (parseDate : String → Option Date)
    (date_str : String) (row_num : Nat) : Except String Date :=
  match parseDate (pyStrip date_str) with
  | some d => .ok d
  | none =>
      .error ("Row " ++ toString row_num ++ ": Invalid date format \x27" ++ date_str ++
        "\x27. Expected: " ++ date_format)

/-- `validate_amount(amount_str, row_num=None)`.  The body wraps the parse
and both comparisons in `try/except InvalidOperation`: a malformed string
fails to parse, and an ordering comparison on a NaN signals
InvalidOperation, so both land in the invalid-format branch.  The
`ValidationError`s raised for negative and zero values are not caught by
that handler. -/
def rowPrefix (row_num : Option Nat) : String :=
  match row_num with
  | none => ""
  | some n => "Row " ++ toString n ++ ": "

def validate_amount (amount_str : String) (row_num : Option Nat) : Except String Dec :=
  let row := rowPrefix row_num
  let invalid : Except String Dec :=
    .error (row ++ "Invalid amount format \x27" ++ amount_str ++ "\x27. Must be a valid number.")
  match decimalOfString (pyStrip amount_str) with
  | none => invalid
  | some amount =>
    match Dec.lt? amount Dec.zero with
    | none => invalid
    | some true => .error (row ++ "Amount cannot be negative: " ++ amount.toStr)
    | some false =>
      match Dec.eq? amount Dec.zero with
      | none => invalid
      | some true => .error (row ++ "Amount cannot be zero")
      | some false => .ok amount

def validate_transaction_type (trans_type : String) (row_num : Nat) : Except String String :=
  let normalized := pyLower (pyStrip trans_type)
  if VALID_TRANSACTION_TYPES.contains normalized then .ok normalized
  else
    .error ("Row " ++ toString row_num ++ ": Invalid transaction type \x27" ++ trans_type ++
      "\x27. Must be one of: " ++ String.intercalate ", " VALID_TRANSACTION_TYPES)

def validate_category (category : String) (row_num : Nat) : Except String String :=
  let normalized := pyStrip category
  if normalized = "" ∨ normalized.length < 2 then
    .error ("Row " ++ toString row_num ++ ": Category must be at least 2 characters long")
  else .ok normalized

def validate_description (description : String) (row_num : Nat) : Except String String :=
  let normalized := pyStrip description
  if normalized = "" then
    .error ("Row " ++ toString row_num ++ ": Description cannot be empty")
  else .ok normalized

/-- `record[f]` for a field the presence check has already confirmed; the
default is never reached after a successful presence check. -/
def getField (record : RawRecord) (f : String) : String :=
  (record.lookup f).getD ""

/-- `validate_record`: presence first, then the five field validators in
the order the Python dict literal evaluates them (date, amount, category,
type, description); the first `ValidationError` aborts the whole row. -/
def validate_record (date_format : String) (parseDate : String → Option Date)
    (record : RawRecord) (row_num : Nat) : Except String ValidRecord := do
  validate_field_presence record row_num
  let d ← validate_date date_format parseDate (getField record "date") row_num
  let a ← validate_amount (getField record "amount") (some row_num)
  let c ← validate_category (getField record "category") row_num
  let ty ← validate_transaction_type (getField record "type") row_num
  let de ← validate_description (getField record "description") row_num
  return { date := d, amount := a, category := c, type := ty, description := de,
           original_record := record }

/-! ### Importer (src/importer/importer_controller.py `TransactionImporter`;
`load` in src/NPJP_Final/importer.py is identical).

The file system is a function from path to `Option CSVFile` (`none` models
a path for which `Path(filepath).exists()` is false).  File text is
modelled already decoded; `csv.DictReader` is modelled by its output: the
header field names (`none` for an empty file) and the data rows.  A
DictReader row maps each header key to either a string or Python `None`:
with the default `restval=None`, a short data row (fewer fields than the
header) is padded with `None` under the missing keys.  Such a `None`
reaching a required field makes `validate_field_presence` evaluate
`record[f].strip()` on `None` and crash with an AttributeError that
nothing in `load` catches, aborting the import mid-file.  (Extra fields
of an over-long row land under the non-string key `None` (`restkey`);
no validator ever reads that entry, so it is not modelled.) -/

/-- A data row as produced by `csv.DictReader`: each header key maps to a
string, or to Python `None` (modelled `none`) when the row was short. -/
abbrev CSVRow := List (String × Option String)

/-- Does this row carry `None` under some required field?  Exactly then
the presence comprehension evaluates `record[f].strip()` on `None` and
raises AttributeError. -/
def rowHasNoneRequired (row : CSVRow) : Bool :=
  REQUIRED_FIELDS.any (fun f => row.lookup f == some none)

/-- The string-valued entries of a DictReader row.  When
`rowHasNoneRequired row = false`, the validators read exactly these
entries (every required key is either absent or string-valued, and
`None` under a non-required key is never consulted). -/
def stringEntries (row : CSVRow) : RawRecord :=
  row.filterMap (fun p => p.2.map (fun v => (p.1, v)))

/-- A complete (no padding) DictReader row from string values. -/
def asCSVRow (r : RawRecord) : CSVRow := r.map (fun p => (p.1, some p.2))

structure CSVFile where
  fieldnames : Option (List String)
  rows : List CSVRow

structure ImporterState where
  date_format : String
  transactions : List ValidRecord
  validation_errors : List String
deriving DecidableEq, Repr

inductive LoadErr where
  | fileNotFound (msg : String)
  | valueError (msg : String)
  | attributeError (msg : String)
deriving DecidableEq, Repr

/-- The AttributeError message Python raises for `None.strip()`. -/
def noneStripMsg : String := "\x27NoneType\x27 object has no attribute \x27strip\x27"

/-- The row loop of `load`: validate each row, appending successes to the
transaction list and error messages to the error list.  A row whose
required field was padded to `None` crashes `validate_field_presence`
with AttributeError — not a `ValidationError`, so the `except` clause
does not catch it and the loop aborts there (third component `true`). -/
def loadRows (date_format : String) (parseDate : String → Option Date)
    (rows : List CSVRow) (row_num : Nat) (ts : List ValidRecord) (errs : List String) :
    List ValidRecord × List String × Bool :=
  match rows with
  | [] => (ts, errs, false)
  | row :: rest =>
    if rowHasNoneRequired row then (ts, errs, true)
    else
      match validate_record date_format parseDate (stringEntries row) row_num with
      | .ok v => loadRows date_format parseDate rest (row_num + 1) (ts ++ [v]) errs
      | .error e => loadRows date_format parseDate rest (row_num + 1) ts (errs ++ [e])

/-- The aggregated failure message built when no row validated. -/
def aggregateMessage (errs : List String) : String :=
  "No valid transactions found. Errors:\n" ++ String.intercalate "\n" (errs.take 5) ++
    (if errs.length > 5 then "\n... and " ++ toString (errs.length - 5) ++ " more" else "")

/-- `TransactionImporter.load(filepath)`: returns the importer state after
the call together with the exception it raises, if any.  Note the
existence check precedes the two `clear()` calls, and an AttributeError
from a `None`-padded row propagates out of the loop (skipping the
aggregate check) with the rows processed so far retained in the state. -/
def load (parseDate : String → Option Date) (fs : String → Option CSVFile)
    (st : ImporterState) (filepath : String) : ImporterState × Option LoadErr :=
  match fs filepath with
  | none => (st, some (.fileNotFound ("File not found: " ++ filepath)))
  | some file =>
    let st1 : ImporterState := { st with transactions := [], validation_errors := [] }
    if file.fieldnames.getD [] = [] then
      (st1, some (.valueError "CSV file is empty or has no header row"))
    else
      match loadRows st.date_format parseDate file.rows 2 [] [] with
      | (ts, errs, crashed) =>
        let st2 : ImporterState := { st1 with transactions := ts, validation_errors := errs }
        if crashed then (st2, some (.attributeError noneStripMsg))
        else if ts = [] ∧ errs ≠ [] then (st2, some (.valueError (aggregateMessage errs)))
        else (st2, none)

/-- `get_transactions` (returns a defensive copy, i.e. an equal list). -/
def get_transactions (st : ImporterState) : List ValidRecord := st.transactions

/-- `get_validation_errors` (returns a defensive copy, i.e. an equal list). -/
def get_validation_errors (st : ImporterState) : List String := st.validation_errors

/-- Characterization of the valid records `load` accumulates from `rows`
numbered from `row_num`, when no row is `None`-padded. -/
def validRows (date_format : String) (parseDate : String → Option Date)
    (rows : List CSVRow) (row_num : Nat) : List ValidRecord :=
  (rows.enumFrom row_num).filterMap
    (fun p => (validate_record date_format parseDate (stringEntries p.2) p.1).toOption)

/-- Characterization of the error messages `load` accumulates from `rows`
numbered from `row_num`, when no row is `None`-padded. -/
def errMsgs (date_format : String) (parseDate : String → Option Date)
    (rows : List CSVRow) (row_num : Nat) : List String :=
  (rows.enumFrom row_num).filterMap
    (fun p =>
      match validate_record date_format parseDate (stringEntries p.2) p.1 with
      | .error e => some e
      | .ok _ => none)

/-! ### Filter engine (`TransactionFilter`)

`by_amount_range` and `by_type` are identical in
src/importer/importer_controller.py and src/NPJP_Final/importer.py;
`apply_filters` exists only in the latter.  Each chained call narrows the
held list; the functions below map the held list before a call to the
held list after it.  The amount comparisons in the source would raise
InvalidOperation on NaN operands; `Dec.ltb`/`Dec.leb` totalize them, and
every theorem about the filters carries the hypotheses (validated,
non-NaN amounts and non-NaN bounds) under which the totalized and the
signaling comparisons agree. -/

/-- `t['amount'] > max_amount`. -/
def Dec.gtb (a b : Dec) : Bool := Dec.ltb b a

/-- `t['amount'] >= min_amount`. -/
def Dec.geb (a b : Dec) : Bool := Dec.leb b a

/-- The first skip condition of the `by_amount_range` loop:
`if min_amount and t['amount'] < min_amount: continue`.  Note the
truthiness test: `None` and every zero-valued Decimal disable the bound. -/
def belowMin (min_amount : Option Dec) (a : Dec) : Bool :=
  match min_amount with
  | none => false
  | some m => m.truthy && Dec.ltb a m

/-- The second skip condition of the `by_amount_range` loop:
`if max_amount and t['amount'] > max_amount: continue`. -/
def aboveMax (max_amount : Option Dec) (a : Dec) : Bool :=
  match max_amount with
  | none => false
  | some m => m.truthy && Dec.gtb a m

/-- `TransactionFilter.by_amount_range`: the loop keeps a row iff neither
skip condition fires. -/
def by_amount_range (ts : List ValidRecord) (min_amount max_amount : Option Dec) :
    List ValidRecord :=
  ts.filter (fun t => !belowMin min_amount t.amount && !aboveMax max_amount t.amount)

/-- `TransactionFilter.by_type`. -/
def by_type (ts : List ValidRecord) (transaction_type : String) : List ValidRecord :=
  let type_normalized := pyLower (pyStrip transaction_type)
  ts.filter (fun t => t.type == type_normalized)

/-- Does `needle` occur as a prefix of `hay`? -/
def startsWith : List Char → List Char → Bool
  | [], _ => true
  | _ :: _, [] => false
  | a :: as, b :: bs => (a == b) && startsWith as bs

/-- Python `needle in hay` substring test. -/
def containsSub : List Char → List Char → Bool
  | [], needle => startsWith needle []
  | c :: t, needle => startsWith needle (c :: t) || containsSub t needle

/-- `TransactionFilter.apply_filters` (src/NPJP_Final/importer.py).  Each
criterion is guarded exactly as in the source: the date pair by
`if start_date and end_date` (datetimes are always truthy), the amount
bounds by `is not None`, and the textual criteria by truthiness (an empty
string or list skips the criterion). -/
def apply_filters (ts : List ValidRecord)
    (start_date end_date : Option Date)
    (min_amount max_amount : Option Dec)
    (category : Option String) (categories : Option (List String))
    (transaction_type : Option String) (description_keyword : Option String) :
    List ValidRecord :=
  let f0 := ts
  let f1 := match start_date, end_date with
    | some sd, some ed => f0.filter (fun t => Date.leb sd t.date && Date.leb t.date ed)
    | _, _ => f0
  let f2 := match min_amount with
    | some m => f1.filter (fun t => Dec.geb t.amount m)
    | none => f1
  let f3 := match max_amount with
    | some m => f2.filter (fun t => Dec.leb t.amount m)
    | none => f2
  let f4 := match category with
    | some c =>
        if c ≠ "" then
          f3.filter (fun t => pyLower t.category == pyLower c)
        else f3
    | none => f3
  let f5 := match categories with
    | some cs =>
        if cs ≠ [] then
          f4.filter (fun t =>
            (cs.map pyLower).contains (pyLower t.category))
        else f4
    | none => f4
  let f6 := match transaction_type with
    | some ty =>
        if ty ≠ "" then f5.filter (fun t => t.type == pyLower (pyStrip ty))
        else f5
    | none => f5
  let f7 := match description_keyword with
    | some kw =>
        if kw ≠ "" then
          f6.filter (fun t =>
            containsSub (pyLower t.description).data (pyLower kw).data)
        else f6
    | none => f6
  f7

/-- What validation guarantees about an amount that reached the record
list: it is not a NaN and is strictly greater than Decimal zero
(`validate_amount` rejects NaN, negative and zero inputs). -/
def amtOKb (a : Dec) : Bool := !a.isNan && Dec.ltb Dec.zero a

/-! ### Concrete instances used to instantiate the parametric theorems -/

/-- Concrete stand-in for `datetime.strptime` with format `%Y-%m-%d`, used
only to instantiate theorems that are parametric in the date parser. -/
def splitOnChar (sep : Char) : List Char → List (List Char)
  | [] => [[]]
  | c :: rest =>
    let r := splitOnChar sep rest
    if c = sep then [] :: r
    else
      match r with
      | [] => [[c]]
      | g :: gs => (c :: g) :: gs

def charsToNat? (cs : List Char) : Option Nat :=
  if cs = [] then none
  else
    cs.foldl
      (fun acc c =>
        match acc, charDigit? c with
        | some n, some d => some (n * 10 + d)
        | _, _ => none)
      (some 0)

def parseYmd (s : String) : Option Date :=
  match splitOnChar '-' s.data with
  | [y, m, d] =>
    match charsToNat? y, charsToNat? m, charsToNat? d with
    | some yn, some mn, some dn =>
        if 1 ≤ mn ∧ mn ≤ 12 ∧ 1 ≤ dn ∧ dn ≤ 31 then some ⟨yn, mn, dn⟩ else none
    | _, _, _ => none
  | _ => none

/-- A raw CSV row that passes every validator. -/
def rawA : RawRecord :=
  [("date", "2024-01-05"), ("amount", "5"), ("category", "Groceries"),
   ("type", "expense"), ("description", "food")]

/-- The validated record `validate_record` assembles from `rawA`. -/
def recA : ValidRecord :=
  { date := ⟨2024, 1, 5⟩, amount := .fin false [5] 0, category := "Groceries",
    type := "expense", description := "food", original_record := rawA }

/-- A raw CSV row whose amount fails validation. -/
def rawBad : RawRecord :=
  [("date", "2024-01-06"), ("amount", "abc"), ("category", "Groceries"),
   ("type", "expense"), ("description", "snack")]

def stEmpty : ImporterState :=
  { date_format := "%Y-%m-%d", transactions := [], validation_errors := [] }

def stPrior : ImporterState :=
  { date_format := "%Y-%m-%d", transactions := [recA], validation_errors := ["old error"] }

def csvHeader : List String := ["date", "amount", "category", "type", "description"]

def fsMixed : String → Option CSVFile :=
  fun p =>
    if p = "tx.csv" then some ⟨some csvHeader, [asCSVRow rawA, asCSVRow rawBad]⟩ else none

def fsAllBad : String → Option CSVFile :=
  fun p =>
    if p = "bad.csv" then some ⟨some csvHeader, [asCSVRow rawBad, asCSVRow rawBad]⟩ else none

def fsNone : String → Option CSVFile := fun _ => none

/-- The DictReader row for the short data line `2024-01-05,5` under the
five-column header: the three absent fields are padded with `None`. -/
def shortRow : CSVRow :=
  [("date", some "2024-01-05"), ("amount", some "5"), ("category", none),
   ("type", none), ("description", none)]

/-- A file whose data rows are one invalid (bad amount) row, then the
`None`-padded short row, then another invalid row. -/
def fsShort : String → Option CSVFile :=
  fun p =>
    if p = "short.csv" then
      some ⟨some csvHeader, [asCSVRow rawBad, shortRow, asCSVRow rawBad]⟩
    else none

/-! ### Helper lemmas about Decimal comparisons -/

theorem finVal_eq_zero (s : Bool) (c : List Nat) (e : Int) (h : digitsToNat c = 0) :
    Dec.finVal s c e = 0 := by
  simp [Dec.finVal, h]

theorem finVal_of_zero_lit : Dec.finVal false [0] 0 = 0 := by
  simp [Dec.finVal, digitsToNat]

theorem cast_sign_if (s : Bool) : (((if s then -1 else 1 : ℤ) : ℚ)) = (if s then -1 else 1) := by
  cases s <;> simp

/-- The scaled numerator times the common power of ten recovers the exact
value of the triple. -/
theorem scaled_mul_pow (s : Bool) (c : List Nat) (e b : Int) (h : b ≤ e) :
    ((Dec.scaled s c e b : ℤ) : ℚ) * (10 : ℚ) ^ b = Dec.finVal s c e := by
  have h10 : (10 : ℚ) ≠ 0 := by norm_num
  unfold Dec.scaled Dec.finVal pow10
  push_cast [cast_sign_if]
  rw [mul_assoc, mul_assoc, ← zpow_natCast (10 : ℚ), Int.toNat_of_nonneg (sub_nonneg.mpr h),
    ← zpow_add₀ h10, sub_add_cancel, mul_assoc]

/-- Comparing scaled numerators over the base `min e1 e2` is comparing the
exact values. -/
theorem scaled_lt_iff (s1 : Bool) (c1 : List Nat) (e1 : Int)
    (s2 : Bool) (c2 : List Nat) (e2 : Int) :
    Dec.scaled s1 c1 e1 (min e1 e2) < Dec.scaled s2 c2 e2 (min e1 e2) ↔
      Dec.finVal s1 c1 e1 < Dec.finVal s2 c2 e2 := by
  have hpow : (0 : ℚ) < (10 : ℚ) ^ (min e1 e2) := zpow_pos (by norm_num) _
  rw [← scaled_mul_pow s1 c1 e1 (min e1 e2) (min_le_left e1 e2),
    ← scaled_mul_pow s2 c2 e2 (min e1 e2) (min_le_right e1 e2),
    mul_lt_mul_right hpow]
  exact Int.cast_lt.symm

theorem scaled_le_iff (s1 : Bool) (c1 : List Nat) (e1 : Int)
    (s2 : Bool) (c2 : List Nat) (e2 : Int) :
    Dec.scaled s1 c1 e1 (min e1 e2) ≤ Dec.scaled s2 c2 e2 (min e1 e2) ↔
      Dec.finVal s1 c1 e1 ≤ Dec.finVal s2 c2 e2 := by
  have hpow : (0 : ℚ) < (10 : ℚ) ^ (min e1 e2) := zpow_pos (by norm_num) _
  rw [← scaled_mul_pow s1 c1 e1 (min e1 e2) (min_le_left e1 e2),
    ← scaled_mul_pow s2 c2 e2 (min e1 e2) (min_le_right e1 e2),
    mul_le_mul_right hpow]
  exact Int.cast_le.symm

/-- For non-NaN Decimals, `a <= b` is the negation of `b < a` (as in the
linear order on finite values and infinities). -/
theorem Dec.leb_eq_not_ltb :
    ∀ a b : Dec, a.isNan = false → b.isNan = false → Dec.leb a b = !Dec.ltb b a
  | .fin s1 c1 e1, .fin s2 c2 e2, _, _ => by
      simp only [Dec.leb, Dec.ltb, Dec.le?, Dec.lt?, Option.getD_some, ← decide_not]
      rw [min_comm e2 e1]
      exact decide_eq_decide.mpr not_lt.symm
  | .fin _ _ _, .inf s2, _, _ => by
      simp [Dec.leb, Dec.ltb, Dec.le?, Dec.lt?]
  | .inf s1, .fin _ _ _, _, _ => by
      simp [Dec.leb, Dec.ltb, Dec.le?, Dec.lt?]
  | .inf s1, .inf s2, _, _ => by
      cases s1 <;> cases s2 <;> rfl
  | .nan _ _ _, _, ha, _ => by simp [Dec.isNan] at ha
  | .fin _ _ _, .nan _ _ _, _, hb => by simp [Dec.isNan] at hb
  | .inf _, .nan _ _ _, _, hb => by simp [Dec.isNan] at hb

theorem amtOKb_isNan {a : Dec} (ha : amtOKb a = true) : a.isNan = false := by
  simp only [amtOKb, Bool.and_eq_true, Bool.not_eq_true'] at ha
  exact ha.1

theorem amtOKb_pos {a : Dec} (ha : amtOKb a = true) : Dec.ltb Dec.zero a = true := by
  simp only [amtOKb, Bool.and_eq_true] at ha
  exact ha.2

/-- A validated (positive) amount is `>=` any zero-valued (falsy) Decimal
bound. -/
theorem geb_of_not_truthy (a m : Dec) (ha : amtOKb a = true) (hm : m.isNan = false)
    (htr : m.truthy = false) : Dec.geb a m = true := by
  cases m with
  | nan s sig p => simp [Dec.isNan] at hm
  | inf s => simp [Dec.truthy] at htr
  | fin s c e =>
    have hc : digitsToNat c = 0 := by
      simpa [Dec.truthy] using htr
    have hval : Dec.finVal s c e = 0 := finVal_eq_zero s c e hc
    have hpos := amtOKb_pos ha
    cases a with
    | nan sa sig p => simp [amtOKb, Dec.isNan] at ha
    | inf sa =>
      simp only [Dec.ltb, Dec.lt?, Dec.zero, Option.getD_some] at hpos
      simp [Dec.geb, Dec.leb, Dec.le?, hpos]
    | fin sa ca ea =>
      simp only [Dec.ltb, Dec.lt?, Dec.zero, Option.getD_some, decide_eq_true_eq,
        scaled_lt_iff, finVal_of_zero_lit] at hpos
      simp only [Dec.geb, Dec.leb, Dec.le?, Option.getD_some, decide_eq_true_eq,
        scaled_le_iff, hval]
      exact le_of_lt hpos

/-- The chained-mode min-bound skip condition, negated, agrees with the
bulk-mode `amount >= min` test for a validated amount and non-NaN bound. -/
theorem min_skip_eq_geb (a m : Dec) (ha : amtOKb a = true) (hm : m.isNan = false) :
    (!(m.truthy && Dec.ltb a m)) = Dec.geb a m := by
  cases htr : m.truthy with
  | false => simp [geb_of_not_truthy a m ha hm htr]
  | true =>
    simp only [Bool.true_and]
    exact (Dec.leb_eq_not_ltb m a hm (amtOKb_isNan ha)).symm

/-- The chained-mode max-bound skip condition, negated, agrees with the
bulk-mode `amount <= max` test for non-NaN operands and a truthy bound. -/
theorem max_skip_eq_leb (a m : Dec) (hana : a.isNan = false) (hm : m.isNan = false)
    (htr : m.truthy = true) : (!(m.truthy && Dec.gtb a m)) = Dec.leb a m := by
  rw [htr]
  simp only [Bool.true_and, Dec.gtb]
  exact (Dec.leb_eq_not_ltb a m hana hm).symm

/-! ### Helper lemmas about the load loop -/

theorem loadRows_eq (df : String) (pd : String → Option Date) :
    ∀ (rows : List CSVRow) (n : Nat) (ts : List ValidRecord) (errs : List String),
      (∀ row ∈ rows, rowHasNoneRequired row = false) →
      loadRows df pd rows n ts errs =
        (ts ++ validRows df pd rows n, errs ++ errMsgs df pd rows n, false)
  | [], n, ts, errs, _ => by
      simp [loadRows, validRows, errMsgs, List.enumFrom]
  | r :: rest, n, ts, errs, hnc => by
      rw [loadRows]
      rw [if_neg (by simp [hnc r (List.mem_cons_self r rest)])]
      have hrest : ∀ row ∈ rest, rowHasNoneRequired row = false :=
        fun row hrow => hnc row (List.mem_cons_of_mem r hrow)
      cases h : validate_record df pd (stringEntries r) n with
      | ok v =>
          simp only [h]
          rw [loadRows_eq df pd rest (n + 1) (ts ++ [v]) errs hrest]
          simp [validRows, errMsgs, List.enumFrom, h, Except.toOption]
      | error e =>
          simp only [h]
          rw [loadRows_eq df pd rest (n + 1) ts (errs ++ [e]) hrest]
          simp [validRows, errMsgs, List.enumFrom, h, Except.toOption]

theorem validRows_errMsgs_length (df : String) (pd : String → Option Date) :
    ∀ (rows : List CSVRow) (n : Nat),
      (validRows df pd rows n).length + (errMsgs df pd rows n).length = rows.length
  | [], n => by simp [validRows, errMsgs, List.enumFrom]
  | r :: rest, n => by
      have ih := validRows_errMsgs_length df pd rest (n + 1)
      cases h : validate_record df pd (stringEntries r) n with
      | ok v =>
          simp only [validRows, errMsgs, List.enumFrom, List.filterMap_cons, h,
            Except.toOption, List.length_cons] at ih ⊢
          omega
      | error e =>
          simp only [validRows, errMsgs, List.enumFrom, List.filterMap_cons, h,
            Except.toOption, List.length_cons] at ih ⊢
          omega

theorem except_bind_ok {ε α β : Type} (a : α) (f : α → Except ε β) :
    ((Except.ok a : Except ε α) >>= f) = f a := rfl

theorem except_bind_error {ε α β : Type} (e : ε) (f : α → Except ε β) :
    ((Except.error e : Except ε α) >>= f) = .error e := rfl

/-! ### Claim theorems -/

/-- C10: `validate_amount` does not restrict amounts to finite values: the
input string `"Infinity"` parses to the positive infinite Decimal, which is
neither negative nor zero, so `validate_amount` returns it successfully and
a non-finite amount passes field validation. -/
theorem validate_amount_accepts_infinity :
    validate_amount "Infinity" none = .ok (.inf false) ∧
    validate_amount "Infinity" (some 2) = .ok (.inf false) := by
  exact ⟨rfl, rfl⟩

/-- C4 counterexample: the input `"NaN"` parses as a Decimal, and the
parsed value is neither negative (`< 0` does not yield true) nor zero, yet
`validate_amount` does not return it: the ordering comparison on the NaN
signals InvalidOperation, which the handler turns into the invalid-format
failure.  So the claimed three-way classification ("returns the value
unless the string does not parse, is negative, or is zero") fails at the
concrete input `"NaN"`. -/
theorem validate_amount_nan_cex :
    decimalOfString (pyStrip "NaN") = some (.nan false false []) ∧
    Dec.lt? (.nan false false []) Dec.zero ≠ some true ∧
    Dec.eq? (.nan false false []) Dec.zero ≠ some true ∧
    validate_amount "NaN" none ≠ .ok (.nan false false []) ∧
    validate_amount "NaN" none =
      .error "Invalid amount format \x27NaN\x27. Must be a valid number." := by
  refine ⟨rfl, by decide, by decide, by decide, rfl⟩

/-- C4 (amended): for every input string, `validate_amount` either returns
the exact parsed Decimal value, or fails with exactly one of three
messages: the invalid-format message when the string does not parse as a
Decimal OR parses to a NaN (whose ordering comparison signals
InvalidOperation into the same handler), the cannot-be-negative message
when the parsed value is `< 0`, and the cannot-be-zero message when it
`== 0`; in particular `validate_amount "-5"` fails with the negative
message, `validate_amount "0"` with the zero message, and
`validate_amount "abc"` with the invalid-format message. -/
theorem validate_amount_classification (s : String) (r : Option Nat) :
    (decimalOfString (pyStrip s) = none →
      validate_amount s r =
        .error (rowPrefix r ++ "Invalid amount format \x27" ++ s ++
          "\x27. Must be a valid number.")) ∧
    (∀ a, decimalOfString (pyStrip s) = some a → Dec.lt? a Dec.zero = none →
      validate_amount s r =
        .error (rowPrefix r ++ "Invalid amount format \x27" ++ s ++
          "\x27. Must be a valid number.")) ∧
    (∀ a, decimalOfString (pyStrip s) = some a → Dec.lt? a Dec.zero = some true →
      validate_amount s r =
        .error (rowPrefix r ++ "Amount cannot be negative: " ++ a.toStr)) ∧
    (∀ a, decimalOfString (pyStrip s) = some a → Dec.lt? a Dec.zero = some false →
      Dec.eq? a Dec.zero = some true →
      validate_amount s r = .error (rowPrefix r ++ "Amount cannot be zero")) ∧
    (∀ a, decimalOfString (pyStrip s) = some a → Dec.lt? a Dec.zero = some false →
      Dec.eq? a Dec.zero = some false →
      validate_amount s r = .ok a) := by
  refine ⟨?_, ?_, ?_, ?_, ?_⟩
  · intro h
    simp [validate_amount, h]
  · intro a h1 h2
    simp [validate_amount, h1, h2]
  · intro a h1 h2
    simp [validate_amount, h1, h2]
  · intro a h1 h2 h3
    simp [validate_amount, h1, h2, h3]
  · intro a h1 h2 h3
    simp [validate_amount, h1, h2, h3]

/-- C4 witness: the three spec examples, obtained by instantiating the
classification theorem at `"-5"`, `"0"` and `"abc"`. -/
theorem validate_amount_classification_witness :
    validate_amount "-5" none = .error "Amount cannot be negative: -5" ∧
    validate_amount "0" none = .error "Amount cannot be zero" ∧
    validate_amount "abc" none =
      .error "Invalid amount format \x27abc\x27. Must be a valid number." := by
  refine ⟨?_, ?_, ?_⟩
  · exact (validate_amount_classification "-5" none).2.2.1 (.fin true [5] 0) rfl (by decide)
  · exact (validate_amount_classification "0" none).2.2.2.1 (.fin false [0] 0) rfl
      (by decide) (by decide)
  · exact (validate_amount_classification "abc" none).1 rfl

/-- C6: whenever at least one of the five required fields is absent or
whitespace-only, `validate_field_presence` fails with a single error whose
message is built from the comma-separated enumeration of ALL such fields,
and every missing-or-blank required field appears in that enumeration. -/
theorem presence_failure_lists_all_missing (record : RawRecord) (row_num : Nat)
    (h : missingFields record ≠ []) :
    validate_field_presence record row_num =
      .error ("Row " ++ toString row_num ++ ": Missing required fields: " ++
        String.intercalate ", " (missingFields record)) ∧
    (∀ f ∈ REQUIRED_FIELDS, fieldBlank record f = true → f ∈ missingFields record) := by
  constructor
  · simp [validate_field_presence, h]
  · intro f hf hb
    simp [missingFields, List.mem_filter, hf, hb]

/-- C6 witness: a row with blank category and absent description fails with
the message listing both fields. -/
theorem presence_failure_lists_all_missing_witness :
    missingFields [("date", "2024-01-05"), ("amount", "5"), ("category", "  "),
        ("type", "expense")] ≠ [] ∧
    validate_field_presence [("date", "2024-01-05"), ("amount", "5"), ("category", "  "),
        ("type", "expense")] 2 =
      .error "Row 2: Missing required fields: category, description" :=
  ⟨by decide,
    (presence_failure_lists_all_missing
      [("date", "2024-01-05"), ("amount", "5"), ("category", "  "), ("type", "expense")]
      2 (by decide)).1⟩

/-- C5: `validate_record` runs the presence check first; when presence
passes it validates the fields in the order date, amount, category, type,
description, and the whole row fails with exactly the first field failure
encountered; on success it returns the assembled record whose fields are
the normalized values, with the raw row under `original_record`. -/
theorem validate_record_first_error (df : String) (pd : String → Option Date)
    (record : RawRecord) (n : Nat) :
    (∀ e, validate_field_presence record n = .error e →
      validate_record df pd record n = .error e) ∧
    (∀ e, validate_field_presence record n = .ok () →
      validate_date df pd (getField record "date") n = .error e →
      validate_record df pd record n = .error e) ∧
    (∀ d e, validate_field_presence record n = .ok () →
      validate_date df pd (getField record "date") n = .ok d →
      validate_amount (getField record "amount") (some n) = .error e →
      validate_record df pd record n = .error e) ∧
    (∀ d a e, validate_field_presence record n = .ok () →
      validate_date df pd (getField record "date") n = .ok d →
      validate_amount (getField record "amount") (some n) = .ok a →
      validate_category (getField record "category") n = .error e →
      validate_record df pd record n = .error e) ∧
    (∀ d a c e, validate_field_presence record n = .ok () →
      validate_date df pd (getField record "date") n = .ok d →
      validate_amount (getField record "amount") (some n) = .ok a →
      validate_category (getField record "category") n = .ok c →
      validate_transaction_type (getField record "type") n = .error e →
      validate_record df pd record n = .error e) ∧
    (∀ d a c ty e, validate_field_presence record n = .ok () →
      validate_date df pd (getField record "date") n = .ok d →
      validate_amount (getField record "amount") (some n) = .ok a →
      validate_category (getField record "category") n = .ok c →
      validate_transaction_type (getField record "type") n = .ok ty →
      validate_description (getField record "description") n = .error e →
      validate_record df pd record n = .error e) ∧
    (∀ d a c ty de, validate_field_presence record n = .ok () →
      validate_date df pd (getField record "date") n = .ok d →
      validate_amount (getField record "amount") (some n) = .ok a →
      validate_category (getField record "category") n = .ok c →
      validate_transaction_type (getField record "type") n = .ok ty →
      validate_description (getField record "description") n = .ok de →
      validate_record df pd record n =
        .ok { date := d, amount := a, category := c, type := ty, description := de,
              original_record := record }) := by
  refine ⟨?_, ?_, ?_, ?_, ?_, ?_, ?_⟩
  · intro e h1
    simp [validate_record, h1, except_bind_error]
  · intro e h1 h2
    simp [validate_record, h1, h2, except_bind_ok, except_bind_error]
  · intro d e h1 h2 h3
    simp [validate_record, h1, h2, h3, except_bind_ok, except_bind_error]
  · intro d a e h1 h2 h3 h4
    simp [validate_record, h1, h2, h3, h4, except_bind_ok, except_bind_error]
  · intro d a c e h1 h2 h3 h4 h5
    simp [validate_record, h1, h2, h3, h4, h5, except_bind_ok, except_bind_error]
  · intro d a c ty e h1 h2 h3 h4 h5 h6
    simp [validate_record, h1, h2, h3, h4, h5, h6, except_bind_ok, except_bind_error]
  · intro d a c ty de h1 h2 h3 h4 h5 h6
    simp [validate_record, h1, h2, h3, h4, h5, h6, except_bind_ok, except_bind_error]

/-- C5 witness: on the fully valid row `rawA` every field validator
succeeds and `validate_record` assembles exactly `recA`, whose
`original_record` is the raw row. -/
theorem validate_record_first_error_witness :
    validate_record "%Y-%m-%d" parseYmd rawA 2 = .ok recA :=
  (validate_record_first_error "%Y-%m-%d" parseYmd rawA 2).2.2.2.2.2.2
    ⟨2024, 1, 5⟩ (.fin false [5] 0) "Groceries" "expense" "food"
    (by decide) (by decide) (by decide) (by decide) (by decide) (by decide)

/-- Shared unfolding of `load` on a file that exists, has a header, and
has no `None`-padded row (so the row loop completes without the
AttributeError abort). -/
theorem load_unfold (parseDate : String → Option Date) (fs : String → Option CSVFile)
    (st : ImporterState) (filepath : String) (file : CSVFile)
    (hfs : fs filepath = some file) (hhdr : file.fieldnames.getD [] ≠ [])
    (hnc : ∀ row ∈ file.rows, rowHasNoneRequired row = false) :
    load parseDate fs st filepath =
      ({ date_format := st.date_format,
         transactions := validRows st.date_format parseDate file.rows 2,
         validation_errors := errMsgs st.date_format parseDate file.rows 2 },
       if validRows st.date_format parseDate file.rows 2 = [] ∧
           errMsgs st.date_format parseDate file.rows 2 ≠ [] then
         some (.valueError (aggregateMessage (errMsgs st.date_format parseDate file.rows 2)))
       else none) := by
  obtain ⟨df, ts0, errs0⟩ := st
  simp only [load, hfs]
  rw [if_neg hhdr, loadRows_eq df parseDate file.rows 2 [] [] hnc]
  simp only [List.nil_append]
  rw [if_neg Bool.false_ne_true]
  split <;> rfl

/-- C2 counterexample: `load` on a path that does not exist raises
FileNotFoundError BEFORE the two `clear()` calls, so the previous import
state (a non-empty transaction list and a non-empty error list) survives
the failed call unchanged — contradicting the claim that every `load`
call, including failing ones, clears both lists. -/
theorem load_missing_file_keeps_state :
    load parseYmd fsNone stPrior "missing.csv" =
      (stPrior, some (.fileNotFound "File not found: missing.csv")) ∧
    get_transactions stPrior = [recA] ∧
    get_validation_errors stPrior = ["old error"] := by
  refine ⟨rfl, rfl, rfl⟩

/-- C2 (amended): every `load` call that passes the existence check clears
the held valid list and error list before any row is processed (its
outcome is independent of the previously held lists); a call on a path
that does not exist raises FileNotFoundError and leaves the prior state
intact. -/
theorem load_clears_iff_file_exists (parseDate : String → Option Date)
    (fs : String → Option CSVFile) (st : ImporterState) (filepath : String) :
    ((fs filepath).isSome →
      load parseDate fs st filepath =
        load parseDate fs { st with transactions := [], validation_errors := [] } filepath) ∧
    (fs filepath = none →
      load parseDate fs st filepath =
        (st, some (.fileNotFound ("File not found: " ++ filepath)))) := by
  obtain ⟨df, ts0, errs0⟩ := st
  constructor
  · intro h
    cases hfs : fs filepath with
    | none => rw [hfs] at h; simp at h
    | some file => simp [load, hfs]
  · intro h
    simp [load, h]

/-- C2 witness: instantiating the frame property at a file that exists and
at a missing path. -/
theorem load_clears_iff_file_exists_witness :
    load parseYmd fsMixed stPrior "tx.csv" =
      load parseYmd fsMixed
        { stPrior with transactions := [], validation_errors := [] } "tx.csv" ∧
    load parseYmd fsNone stEmpty "gone.csv" =
      (stEmpty, some (.fileNotFound "File not found: gone.csv")) :=
  ⟨(load_clears_iff_file_exists parseYmd fsMixed stPrior "tx.csv").1 (by decide),
   (load_clears_iff_file_exists parseYmd fsNone stEmpty "gone.csv").2 rfl⟩

/-- Aggregation behavior of `load` on a file without `None`-padded rows:
every row is processed, the held lists afterwards are exactly the valid
records and ALL the error messages of the failing rows (v + e equals the
row count), the call raises if and only if no row validated and at least
one error was collected, and every raised aggregate message is built from
the first 5 error messages plus, when e > 5, the count of the remaining
e - 5.  (On a `None`-padded row the import instead aborts with an
uncaught AttributeError — see `load_short_row_aborts`.) -/
theorem load_error_aggregation (parseDate : String → Option Date)
    (fs : String → Option CSVFile) (st : ImporterState) (filepath : String) (file : CSVFile)
    (hfs : fs filepath = some file) (hhdr : file.fieldnames.getD [] ≠ [])
    (hnc : ∀ row ∈ file.rows, rowHasNoneRequired row = false) :
    (load parseDate fs st filepath).1.transactions =
      validRows st.date_format parseDate file.rows 2 ∧
    (load parseDate fs st filepath).1.validation_errors =
      errMsgs st.date_format parseDate file.rows 2 ∧
    (validRows st.date_format parseDate file.rows 2).length +
      (errMsgs st.date_format parseDate file.rows 2).length = file.rows.length ∧
    ((load parseDate fs st filepath).2.isSome ↔
      ((validRows st.date_format parseDate file.rows 2).length = 0 ∧
        1 ≤ (errMsgs st.date_format parseDate file.rows 2).length)) ∧
    (∀ m, (load parseDate fs st filepath).2 = some (.valueError m) →
      m = "No valid transactions found. Errors:\n" ++
        String.intercalate "\n" ((errMsgs st.date_format parseDate file.rows 2).take 5) ++
        (if 5 < (errMsgs st.date_format parseDate file.rows 2).length then
          "\n... and " ++
            toString ((errMsgs st.date_format parseDate file.rows 2).length - 5) ++ " more"
        else "")) := by
  rw [load_unfold parseDate fs st filepath file hfs hhdr hnc]
  refine ⟨rfl, rfl, validRows_errMsgs_length st.date_format parseDate file.rows 2, ?_, ?_⟩
  · by_cases hc : validRows st.date_format parseDate file.rows 2 = [] ∧
        errMsgs st.date_format parseDate file.rows 2 ≠ []
    · rw [if_pos hc]
      simp only [Option.isSome_some, true_iff]
      refine ⟨by simp [hc.1], List.length_pos.mpr hc.2⟩
    · rw [if_neg hc]
      simp only [Option.isSome_none, Bool.false_eq_true, false_iff]
      intro hlen
      exact hc ⟨List.length_eq_zero.mp hlen.1, List.length_pos.mp hlen.2⟩
  · intro m hm
    by_cases hc : validRows st.date_format parseDate file.rows 2 = [] ∧
        errMsgs st.date_format parseDate file.rows 2 ≠ []
    · rw [if_pos hc] at hm
      simp only [Option.some.injEq, LoadErr.valueError.injEq] at hm
      rw [← hm]
      rfl
    · rw [if_neg hc] at hm
      simp at hm

/-- Instance of the aggregation behavior: a two-row file with one valid
and one invalid row — the error list holds the single failing row's
message and the call does not raise. -/
theorem load_error_aggregation_witness :
    fsMixed "tx.csv" = some ⟨some csvHeader, [asCSVRow rawA, asCSVRow rawBad]⟩ ∧
    (load parseYmd fsMixed stPrior "tx.csv").1.validation_errors =
      errMsgs stPrior.date_format parseYmd [asCSVRow rawA, asCSVRow rawBad] 2 ∧
    errMsgs stPrior.date_format parseYmd [asCSVRow rawA, asCSVRow rawBad] 2 =
      ["Row 3: Invalid amount format \x27abc\x27. Must be a valid number."] :=
  ⟨rfl,
   (load_error_aggregation parseYmd fsMixed stPrior "tx.csv"
      ⟨some csvHeader, [asCSVRow rawA, asCSVRow rawBad]⟩ rfl (by decide) (by decide)).2.1,
   by decide⟩

/-- C3: the claim is the spec's intent, and the code has a bug that
violates it — `load` DOES abort mid-file on a bad row.  `csv.DictReader`
pads the short data line `2024-01-05,5` (row 3 here) with `None` under
the three missing header keys; `validate_field_presence` then evaluates
`record[f].strip()` on `None` and raises AttributeError, which `load`
(catching only `ValidationError` per row and `UnicodeDecodeError`) lets
propagate.  At the failing file the import stops at the short row: row
4's error message is never collected (only row 2's is), and although no
row validated and errors exist, no aggregated ValueError is raised — the
raised condition is the AttributeError. -/
theorem load_short_row_aborts :
    rowHasNoneRequired shortRow = true ∧
    load parseYmd fsShort stEmpty "short.csv" =
      ({ date_format := "%Y-%m-%d",
         transactions := [],
         validation_errors :=
           ["Row 2: Invalid amount format \x27abc\x27. Must be a valid number."] },
       some (.attributeError noneStripMsg)) ∧
    get_validation_errors (load parseYmd fsShort stEmpty "short.csv").1 ≠
      errMsgs "%Y-%m-%d" parseYmd [asCSVRow rawBad, shortRow, asCSVRow rawBad] 2 ∧
    (errMsgs "%Y-%m-%d" parseYmd [asCSVRow rawBad, shortRow, asCSVRow rawBad] 2).length = 3 := by
  refine ⟨rfl, rfl, by decide, by decide⟩

/-- C9: when every data row fails validation (each row reaches a verdict —
none is a `None`-padded short row, which would instead crash the import
before any aggregate raise) and the file exists with a header, `load`
raises the aggregated no-valid-transactions failure, yet the state it
leaves behind still exposes the full outcome: `get_transactions` returns
the empty list and `get_validation_errors` returns every collected row
error message. -/
theorem load_aggregate_failure_state (parseDate : String → Option Date)
    (fs : String → Option CSVFile) (st : ImporterState) (filepath : String) (file : CSVFile)
    (hfs : fs filepath = some file) (hhdr : file.fieldnames.getD [] ≠ [])
    (hnc : ∀ row ∈ file.rows, rowHasNoneRequired row = false)
    (hall : validRows st.date_format parseDate file.rows 2 = [])
    (hne : errMsgs st.date_format parseDate file.rows 2 ≠ []) :
    (load parseDate fs st filepath).2 =
      some (.valueError (aggregateMessage (errMsgs st.date_format parseDate file.rows 2))) ∧
    get_transactions (load parseDate fs st filepath).1 = [] ∧
    get_validation_errors (load parseDate fs st filepath).1 =
      errMsgs st.date_format parseDate file.rows 2 := by
  rw [load_unfold parseDate fs st filepath file hfs hhdr hnc]
  refine ⟨?_, ?_, rfl⟩
  · rw [if_pos ⟨hall, hne⟩]
  · simpa [get_transactions] using hall

/-- C9 witness: a file whose two rows both fail validation — afterwards
the transaction list is empty, both error messages are retained, and the
raised condition carries the aggregate message. -/
theorem load_aggregate_failure_state_witness :
    get_validation_errors (load parseYmd fsAllBad stEmpty "bad.csv").1 =
      ["Row 2: Invalid amount format \x27abc\x27. Must be a valid number.",
       "Row 3: Invalid amount format \x27abc\x27. Must be a valid number."] ∧
    get_transactions (load parseYmd fsAllBad stEmpty "bad.csv").1 = [] ∧
    (load parseYmd fsAllBad stEmpty "bad.csv").2.isSome = true := by
  have h := load_aggregate_failure_state parseYmd fsAllBad stEmpty "bad.csv"
    ⟨some csvHeader, [asCSVRow rawBad, asCSVRow rawBad]⟩ rfl (by decide) (by decide)
    (by decide) (by decide)
  exact ⟨h.2.2.trans (by decide), h.2.1, by rw [h.1]; rfl⟩

/-- C1 counterexample: the two filter-engine usage modes are NOT
equivalent for all bounds.  `recA` is genuinely a validated record (first
conjunct).  With `max_amount = Decimal(0)` the chained
`by_amount_range(None, 0).by_type("expense")` keeps the record, because
`by_amount_range` tests the bound for truthiness and a zero Decimal is
falsy, but `apply_filters(max_amount=0, transaction_type="expense")` tests
`is not None` and filters `amount <= 0`, dropping it.  (The last two
conjuncts show the empty transaction-type string diverging the same way:
`by_type("")` matches nothing while `apply_filters` skips a falsy
criterion.) -/
theorem filter_zero_bound_divergence :
    validate_record "%Y-%m-%d" parseYmd rawA 2 = .ok recA ∧
    by_type (by_amount_range [recA] none (some Dec.zero)) "expense" = [recA] ∧
    apply_filters [recA] none none none (some Dec.zero) none none (some "expense") none
      = [] ∧
    by_type (by_amount_range [recA] none none) "" = [] ∧
    apply_filters [recA] none none none none none none (some "") none = [recA] := by
  refine ⟨by decide, by decide, by decide, by decide, by decide⟩

/-- C1 (amended): for every list of validated records (amounts are
positive non-NaN Decimals), chaining
`by_amount_range(min_amount, max_amount).by_type(t)` on a fresh engine
yields exactly the list of a single
`apply_filters(min_amount=..., max_amount=..., transaction_type=t)` call
on the same original set, provided the type string is non-empty and any
given `max_amount` is a non-NaN nonzero Decimal (a zero max bound is
treated as absent by the chained mode but applied by the bulk mode, and an
empty type string is applied by the chained mode but skipped as falsy by
the bulk mode); `min_amount` may be any non-NaN Decimal, zero included,
or absent. -/
theorem filter_modes_agree (ts : List ValidRecord) (minA maxA : Option Dec) (tstr : String)
    (hts : ∀ r ∈ ts, amtOKb r.amount = true) (htstr : tstr ≠ "")
    (hmin : ∀ m, minA = some m → m.isNan = false)
    (hmax : ∀ m, maxA = some m → m.isNan = false ∧ m.truthy = true) :
    by_type (by_amount_range ts minA maxA) tstr =
      apply_filters ts none none minA maxA none none (some tstr) none := by
  have htstr' : ¬tstr = "" := htstr
  cases minA with
  | none =>
    cases maxA with
    | none =>
      simp only [apply_filters, by_type, by_amount_range, belowMin, aboveMax, ne_eq,
        htstr', not_false_eq_true, if_true, List.filter_filter, Bool.not_false,
        Bool.true_and]
      simp [Bool.and_true]
    | some m2 =>
      simp only [apply_filters, by_type, by_amount_range, ne_eq, htstr', not_false_eq_true,
        if_true, List.filter_filter]
      refine List.filter_congr ?_
      intro t ht
      have h2 := max_skip_eq_leb t.amount m2 (amtOKb_isNan (hts t ht))
        (hmax m2 rfl).1 (hmax m2 rfl).2
      simp only [belowMin, aboveMax, h2, Bool.not_false, Bool.true_and]
  | some m1 =>
    cases maxA with
    | none =>
      simp only [apply_filters, by_type, by_amount_range, ne_eq, htstr', not_false_eq_true,
        if_true, List.filter_filter]
      refine List.filter_congr ?_
      intro t ht
      have h1 := min_skip_eq_geb t.amount m1 (hts t ht) (hmin m1 rfl)
      simp only [belowMin, aboveMax, h1, Bool.not_false, Bool.and_true]
    | some m2 =>
      simp only [apply_filters, by_type, by_amount_range, ne_eq, htstr', not_false_eq_true,
        if_true, List.filter_filter]
      refine List.filter_congr ?_
      intro t ht
      have h1 := min_skip_eq_geb t.amount m1 (hts t ht) (hmin m1 rfl)
      have h2 := max_skip_eq_leb t.amount m2 (amtOKb_isNan (hts t ht))
        (hmax m2 rfl).1 (hmax m2 rfl).2
      simp only [belowMin, aboveMax, h1, h2]
      rw [Bool.and_comm (Dec.geb t.amount m1) (Dec.leb t.amount m2)]

/-- C1 witness: the spec's own example criteria (`min_amount = 20`,
type `"expense"`) on a one-record validated list. -/
theorem filter_modes_agree_witness :
    by_type (by_amount_range [recA] (some (.fin false [2] 1)) none) "expense" =
      apply_filters [recA] none none (some (.fin false [2] 1)) none none none
        (some "expense") none :=
  filter_modes_agree [recA] (some (.fin false [2] 1)) none "expense"
    (by intro r hr; rw [List.mem_singleton] at hr; subst hr; decide)
    (by decide)
    (by intro m hm; cases hm; decide)
    (by intro m hm; cases hm)

/-- C8: on a validated record list (amounts positive and non-NaN, as
validation guarantees, so that the amount comparisons cannot signal
InvalidOperation in either order), chained filter predicates commute:
`by_type(t)` then `by_amount_range(min, max)` yields the same list as the
reverse chain order. -/
theorem filter_chain_commutes (ts : List ValidRecord) (minA maxA : Option Dec) (tstr : String)
    (hts : ∀ r ∈ ts, amtOKb r.amount = true) :
    by_amount_range (by_type ts tstr) minA maxA =
      by_type (by_amount_range ts minA maxA) tstr := by
  simp only [by_type, by_amount_range, List.filter_filter]
  exact List.filter_congr (fun x _ => Bool.and_comm _ _)

/-- C8 witness: the spec's example instance, `.by_type("expense")` then
`.by_amount_range(min=20)` against the reverse order, on a validated
one-record list. -/
theorem filter_chain_commutes_witness :
    by_amount_range (by_type [recA] "expense") (some (.fin false [2] 1)) none =
      by_type (by_amount_range [recA] (some (.fin false [2] 1)) none) "expense" :=
  filter_chain_commutes [recA] (some (.fin false [2] 1)) none "expense"
    (by intro r hr; rw [List.mem_singleton] at hr; subst hr; decide)

end NPJP
